import Mathlib

/-!
Shallow embedding of the stytra real-time pipeline core, translated from
`stytra/collectors.py`, `stytra/tracking/processes.py` and
`stytra/hardware/motor/motor_process.py`, together with theorems settling
the specification claims about it.

Modelling conventions:
- Python numbers appearing in arithmetic are modelled as `ℚ` (exact) or
  `Nat`/`Int`; pixel values are `Nat`.
- Python exceptions are modelled by an explicit `PyErr` type; fallible
  code returns `Except PyErr _`.
- Queue interactions are recorded as explicit lists of the objects
  actually enqueued during a step.
-/

/-- Python exception classes relevant to the embedded code. -/
inductive PyErr where
  | valueError
  | typeError
  | indexError
  | attributeError
  | zeroDivisionError
deriving DecidableEq, Repr

/-- Python sequence indexing `l[i]` with negative-index support:
`l[-k]` is the `k`-th element from the end; out-of-range yields `none`
(an `IndexError` at the call site). -/
def pyIdx {α : Type _} (l : List α) (i : Int) : Option α :=
  if 0 ≤ i then l.get? i.toNat
  else if (-i).toNat ≤ l.length then l.get? (l.length - (-i).toNat)
  else none

/-- Truncation toward zero, the semantics of Python `int()` applied to a
float value (modelled as an exact rational). -/
def ratTrunc (q : ℚ) : Int :=
  Int.tdiv q.num (q.den : Int)

/- ### Telemetry Accumulator (`stytra/collectors.py`, class `Accumulator`) -/

/-- State of `Accumulator`: a header list (first field always the
timestamp `t`), the stored rows, and the `fps_range` window parameter.
Rows are lists of rationals whose first element is the timestamp; rows of
heterogeneous arity may coexist (no validation at append time).
(`starting_time`/`check_start` are not touched by the modelled
operations and are omitted.) -/
structure Accumulator where
  header_list : List String
  stored_data : List (List ℚ)
  fps_range : Nat
deriving DecidableEq, Repr

/-- `Accumulator.reset(header_list)`: clears stored rows; if a header is
supplied it replaces the schema, prefixed with the timestamp field. -/
def Accumulator.reset (a : Accumulator) (header : Option (List String)) : Accumulator :=
  { a with
    header_list := match header with
      | some h => "t" :: h
      | none => a.header_list
    stored_data := [] }

/-- Appending one row (rows are stored as-is, no arity validation). -/
def Accumulator.append (a : Accumulator) (row : List ℚ) : Accumulator :=
  { a with stored_data := a.stored_data ++ [row] }

/-- `Accumulator.get_fps`, translated from:
```
try:
    last_t = self.stored_data[-1][0]
    t_minus_dif = self.stored_data[-self.fps_range][0]
    return self.fps_range/(last_t-t_minus_dif)
except (IndexError, ValueError):
    return 0.0
```
Every `IndexError` from the four indexing operations is caught and turns
into `0.0` (a `ValueError` cannot arise on numeric data); a zero
denominator raises `ZeroDivisionError`, which the handler does NOT catch. -/
def Accumulator.get_fps (a : Accumulator) : Except PyErr ℚ :=
  match pyIdx a.stored_data (-1) with
  | none => Except.ok 0
  | some lastRow =>
    match pyIdx lastRow 0 with
    | none => Except.ok 0
    | some last_t =>
      match pyIdx a.stored_data (-(a.fps_range : Int)) with
      | none => Except.ok 0
      | some row2 =>
        match pyIdx row2 0 with
        | none => Except.ok 0
        | some t_minus_dif =>
          if last_t - t_minus_dif = 0 then Except.error PyErr.zeroDivisionError
          else Except.ok ((a.fps_range : ℚ) / (last_t - t_minus_dif))

/-- `Accumulator.get_last_n`, translated from:
```
last_n = min(n, len(self.stored_data))
if len(self.stored_data) == 0:
    return np.zeros(len(self.header_list)).reshape(1, len(self.header_list))
else:
    data_list = self.stored_data[-max(last_n, 1):]
    lenghts = np.array([len(d)==len(data_list[-1]) for d in data_list])
    obar = np.array(data_list[np.where(lenghts)[0][0]:])
    return obar
```
`np.where(lenghts)[0][0]` is the index of the FIRST row in the window
whose arity equals the last row's arity; the code keeps everything from
that index to the end (the last row always matches itself, so the
`findIdx` below always hits). -/
def Accumulator.get_last_n (a : Accumulator) (n : Nat) : List (List ℚ) :=
  if a.stored_data.length = 0 then
    [List.replicate a.header_list.length 0]
  else
    let last_n := min n a.stored_data.length
    let data_list := a.stored_data.drop (a.stored_data.length - max last_n 1)
    let lastLen := (data_list.getLastD []).length
    data_list.drop (data_list.findIdx (fun d => d.length == lastLen))

/- ### Frames and image operations (`stytra/tracking/processes.py`) -/

/-- A camera frame / image: a 2D array of `uint8` pixel values, stored
row-major; `numpy`-style shape is `(h, w)`. -/
structure Frame where
  data : List (List Nat)
deriving DecidableEq, Repr

def Frame.h (f : Frame) : Nat := f.data.length

def Frame.w (f : Frame) : Nat := (f.data.headD []).length

def Frame.px (f : Frame) (i j : Nat) : Nat := (f.data.getD i []).getD j 0

/-- `np.zeros(shape, dtype=np.uint8)` for a 2D shape. -/
def zeroFrame (h w : Nat) : Frame :=
  ⟨List.replicate h (List.replicate w 0)⟩

/-- OpenCV default border handling `BORDER_REFLECT_101` for an index one
kernel-radius outside `[0, n)`: `-1 ↦ 1` and `n ↦ n - 2`. -/
def reflect101 (n : Nat) (i : Int) : Nat :=
  if i < 0 then (-i).toNat
  else if (n : Int) ≤ i then (2 * (n : Int) - 2 - i).toNat
  else i.toNat

/-- `cv2.boxFilter(frame, -1, (3, 3))`: normalized 3x3 mean filter with
reflected borders; the mean is rounded to the nearest integer (OpenCV
rounds the result of the fixed-point division; half-up is used here, a
choice none of the claims depend on). -/
def boxFilter3 (f : Frame) : Frame :=
  ⟨(List.range f.h).map (fun i =>
    (List.range f.w).map (fun j =>
      let s := ([-1, 0, 1] : List Int).foldl (fun acc di =>
        ([-1, 0, 1] : List Int).foldl (fun acc2 dj =>
          acc2 + f.px (reflect101 f.h ((i : Int) + di))
                      (reflect101 f.w ((j : Int) + dj))) acc) 0
      (2 * s + 9) / 18))⟩

/-- `cv2.threshold(img, thresh, 255, cv2.THRESH_BINARY)`: pixel becomes
255 where strictly greater than the threshold, else 0. -/
def pyThreshold (thresh : Nat) (f : Frame) : Frame :=
  ⟨f.data.map (fun row => row.map (fun v => if thresh < v then 255 else 0))⟩

/-- The thresholded mask the dispatcher computes for each frame:
`cv2.threshold(cv2.boxFilter(current_frame, -1, (3, 3)), fish_threshold, 255, cv2.THRESH_BINARY)`. -/
def maskOf (fish_threshold : Nat) (f : Frame) : Frame :=
  pyThreshold fish_threshold (boxFilter3 f)

/-- Index set of the Python slice `slice(margin, -margin)` over an axis of
length `n` (`-0` is 0, so margin 0 selects nothing, exactly as in Python). -/
def cropIdx (n m : Nat) : List Nat :=
  let stop := if m = 0 then 0 else n - m
  let start := min m n
  List.range' start (stop - start)

/-- `cv2.sumElems(cv2.absdiff(a[crop, crop], b[crop, crop]))[0]`: sum of
absolute pixel differences over the margin-cropped region. -/
def difsum (margin : Nat) (a b : Frame) : Nat :=
  ((cropIdx a.h margin).map (fun i =>
    ((cropIdx a.w margin).map (fun j =>
      Int.natAbs ((a.px i j : Int) - (b.px i j : Int)))).sum)).sum

/- ### MovingFrameDispatcher (`stytra/tracking/processes.py`, lines 190-286) -/

/-- `MovementDetectionParameters` (a `param.Parameterized` record). -/
structure MDParams where
  fish_threshold : Nat
  motion_threshold : Nat
  frame_margin : Nat
  n_previous_save : Nat
  n_next_save : Nat
deriving DecidableEq, Repr

/-- Defaults declared in `MovementDetectionParameters`. -/
def defaultMDParams : MDParams :=
  { fish_threshold := 100, motion_threshold := 255 * 8, frame_margin := 10,
    n_previous_save := 400, n_next_save := 300 }

/-- Per-process configuration: `gui_framerate` (FrameDispatcher ctor
default 30). -/
structure MFDConfig where
  gui_framerate : ℚ
deriving Repr

/-- Environment inputs consumed by one iteration of
`MovingFrameDispatcher.run`: an optional parameter update from
`processing_parameter_queue`, the `(timestamp, frame)` pair from the
camera queue, the framerate estimate produced by the external
`update_framerate()` (from the `FrameProcessor` base class, outside this
repository), the `psutil` memory-utilization reading, and the
`signal_start_rec` flag value. -/
structure MFDIn where
  paramUpdate : Option MDParams
  time : Nat
  frame : Frame
  framerate : Option ℚ
  mem : ℚ
  sig : Bool
deriving Repr

/-- Mutable state of `MovingFrameDispatcher.run` across loop iterations. -/
structure MFDState where
  params : MDParams
  previous_ims : List Frame
  previous_images : List (Nat × Frame)
  record_counter : Int
  recording_state : Bool
  i_frame : Nat
  i : Nat
  every_x : Nat
  i_recorded : Nat
  mem_use : ℚ
deriving Repr

/-- Result of one loop iteration: successor state plus what was put on
the output queue, the framestart (timestamp) queue and the GUI queue
during that iteration, in order. -/
structure MFDOut where
  state : MFDState
  outputs : List Frame
  framestarts : List Nat
  gui : List (Nat × Frame)
deriving Repr

/-- The `n_crossed` counter of lines 237-247: how many of the 3 stored
thresholded masks have a margin-cropped absolute-difference sum against
the current mask strictly exceeding `motion_threshold`. -/
def nCrossed (p : MDParams) (ims : List Frame) (cur : Frame) : Nat :=
  (List.range 3).countP (fun j =>
    decide (p.motion_threshold < difsum p.frame_margin (ims.getD j (zeroFrame 0 0)) cur))

/-- Outcome of the motion-detection / recording block (lines 241-269). -/
structure RecDecision where
  record_counter : Int
  recording_state : Bool
  previous_images : List (Nat × Frame)
  outputs : List Frame
  framestarts : List Nat
deriving Repr

/-- Lines 241-269 of `MovingFrameDispatcher.run`: once `n_previous_compare`
(= 3) loop frames have been seen, count threshold crossings; on 3 of 3,
(re)arm `record_counter = n_next_save`; while the countdown is positive,
emit (pre-buffer flush on the rising edge, then the current frame) only
when `signal_start_rec` is set and memory use is below 0.9, set
`recording_state` and decrement the counter; otherwise append the frame
to the bounded pre-event buffer. -/
def recBlock (p : MDParams) (s : MFDState) (sig : Bool) (time : Nat)
    (frame cur : Frame) : RecDecision :=
  if 3 ≤ s.i_frame then
    let rc1 : Int :=
      if nCrossed p s.previous_ims cur = 3 then (p.n_next_save : Int)
      else s.record_counter
    if 0 < rc1 then
      let emitted : List (Nat × Frame) × List Frame × List Nat :=
        if sig = true ∧ s.mem_use < 9/10 then
          if s.recording_state = false then
            ([], s.previous_images.map Prod.snd ++ [frame],
                 s.previous_images.map Prod.fst ++ [time])
          else (s.previous_images, [frame], [time])
        else (s.previous_images, [], [])
      { record_counter := rc1 - 1, recording_state := true,
        previous_images := emitted.1, outputs := emitted.2.1,
        framestarts := emitted.2.2 }
    else
      let b := s.previous_images ++ [(time, frame)]
      { record_counter := rc1, recording_state := false,
        previous_images := if p.n_previous_save < b.length then b.tail else b,
        outputs := [], framestarts := [] }
  else
    { record_counter := s.record_counter, recording_state := s.recording_state,
      previous_images := s.previous_images, outputs := [], framestarts := [] }

/-- One iteration of the `while not self.finished_signal.is_set()` loop of
`MovingFrameDispatcher.run` (lines 219-286): optional parameter update,
camera read, thresholding, the recording block, then `i_frame` increment,
circular-store of the current mask, framerate-based display stride update,
and the stride-gated memory reading and GUI forwarding. -/
def stepMFD (cfg : MFDConfig) (inp : MFDIn) (s : MFDState) : MFDOut :=
  let p := inp.paramUpdate.getD s.params
  let cur := maskOf p.fish_threshold inp.frame
  let rd := recBlock p s inp.sig inp.time inp.frame cur
  let i_frame' := s.i_frame + 1
  let every_x' := match inp.framerate with
    | some fr => max (ratTrunc (fr / cfg.gui_framerate)).toNat 1
    | Option.none => s.every_x
  let memGui :=
    if s.i = 0 then (inp.mem, [(inp.time, inp.frame)])
    else (s.mem_use, ([] : List (Nat × Frame)))
  { state :=
      { params := p
        previous_ims := s.previous_ims.set (i_frame' % 3) cur
        previous_images := rd.previous_images
        record_counter := rd.record_counter
        recording_state := rd.recording_state
        i_frame := i_frame'
        i := (s.i + 1) % every_x'
        every_x := every_x'
        i_recorded := s.i_recorded + rd.outputs.length
        mem_use := memGui.1 }
    outputs := rd.outputs
    framestarts := rd.framestarts
    gui := memGui.2 }

/-- Initialization of `MovingFrameDispatcher.run` before the loop (lines
202-217): the first frame pulled from the camera queue determines only the
shape of the three zeroed comparison slots; the pre-event buffer starts
empty, the countdown at 0, and `recording_state` false. -/
def initMFD (frame_0 : Frame) : MFDState :=
  { params := defaultMDParams
    previous_ims := List.replicate 3 (zeroFrame frame_0.h frame_0.w)
    previous_images := []
    record_counter := 0
    recording_state := false
    i_frame := 0
    i := 0
    every_x := 10
    i_recorded := 0
    mem_use := 0 }

/- ### Stage controller (`stytra/hardware/motor/motor_process.py`) -/

/-- A Python value carried in a tracked-position field. -/
inductive PyVal where
  | int (n : Int)
  | float (q : ℚ)
  | bool (b : Bool)
  | str (s : String)
  | none
deriving DecidableEq, Repr

/-- Python `int(v)`: identity on ints, truncation on floats, bool as 0/1,
string parsing (`ValueError` on a non-integer string), `TypeError` on
`None`. -/
def pyInt : PyVal → Except PyErr Int
  | PyVal.int n => Except.ok n
  | PyVal.float q => Except.ok (ratTrunc q)
  | PyVal.bool b => Except.ok (if b then 1 else 0)
  | PyVal.str s =>
    match s.toInt? with
    | some n => Except.ok n
    | Option.none => Except.error PyErr.valueError
  | PyVal.none => Except.error PyErr.typeError

/-- The message read from `dot_position_queue`: an arbitrary object that
may or may not carry the `f0_x` / `f0_y` attributes the controller
accesses (a missing attribute raises `AttributeError` at access). -/
structure TrackedPos where
  f0_x : Option PyVal
  f0_y : Option PyVal
deriving DecidableEq, Repr

/-- The `motor_status` namedtuple `(tracking, homing, waiting)`. -/
structure MotorStatus where
  tracking : Bool
  homing : Bool
  waiting : Bool
deriving DecidableEq, Repr

/-- `idle_status = (False, False, True)`. -/
def idleStatus : MotorStatus :=
  { tracking := false, homing := false, waiting := true }

/-- The `stagexy` namedtuple
`(x_, y_, dist_x, dist_y, tracking, homing, waiting)`. -/
structure Stagexy where
  x_ : PyVal
  y_ : PyVal
  dist_x : PyVal
  dist_y : PyVal
  tracking : Bool
  homing : Bool
  waiting : Bool
deriving DecidableEq, Repr

/-- Commands issued to the two `Motor` axis objects (external actuator
primitives), in program order. -/
inductive MotorCmd where
  | motorminimalY
  | setHomingReverseX (v : Int)
  | motorminimalX
  | calibX
  | calibY
  | jogX (v : Int)
  | jogY (v : Int)
deriving DecidableEq, Repr

/-- Objects that could sit on `motor_position_queue`: what the spec
expects (a `(timestamp, stagexy)` pair) and what a bare
`put(obj, block)` call actually enqueues (the first argument alone). -/
inductive MotorQueueMsg where
  | timeOnly (t : Nat)
  | pair (t : Nat) (e : Stagexy)
deriving DecidableEq, Repr

/-- Persistent state of `ReceiverProcess.run` across loop iterations
(`motor_status` is reassigned at the top of every iteration and is not
persistent). -/
structure MotorState where
  last_position : Option TrackedPos
deriving DecidableEq, Repr

/-- Environment inputs of one iteration: the `home_event` / `calib_event`
flag values, the optional messages pulled from `dot_position_queue` and
`motor_status_queue` (with `Empty` on the first get skipping the second),
the two `get_position()` encoder readings, and `datetime.now()`. -/
structure MotorIn where
  home : Bool
  calib : Bool
  posMsg : Option (Nat × TrackedPos)
  statusMsg : Option (Nat × MotorStatus)
  posX : ℚ
  posY : ℚ
  now : Nat
deriving Repr

/-- `motor_status` after the flag branches (lines 45-58): reset to idle,
then `(False, True, False)` if homing ran, then idle again if calibration
ran. -/
def flagStatus (inp : MotorIn) : MotorStatus :=
  if inp.calib then idleStatus
  else if inp.home then { tracking := false, homing := true, waiting := false }
  else idleStatus

/-- `motor_status` after the queue reads (lines 64-70): both gets share one
`try`, so the status message is consumed (and applied) only when the
position get succeeded first. -/
def statusAfterReads (inp : MotorIn) : MotorStatus :=
  match inp.posMsg with
  | Option.none => flagStatus inp
  | some _ =>
    match inp.statusMsg with
    | Option.none => flagStatus inp
    | some (_, st) => st

/-- The tuple `e` built on success (lines 91-93):
`(float(pos_x), float(pos_y), int(f0_x), int(f0_y), tracking, homing, waiting)`. -/
def tryStage (posX posY : ℚ) (x y : Int) (st : MotorStatus) : Stagexy :=
  { x_ := PyVal.float posX, y_ := PyVal.float posY,
    dist_x := PyVal.int x, dist_y := PyVal.int y,
    tracking := st.tracking, homing := st.homing, waiting := st.waiting }

/-- The fallback tuple `e` of the `except` handler (lines 96-97):
`(pos_x, pos_y, 0.0, 0.0, tracking, homing, waiting)`. -/
def exceptStage (posX posY : ℚ) (st : MotorStatus) : Stagexy :=
  { x_ := PyVal.float posX, y_ := PyVal.float posY,
    dist_x := PyVal.float 0, dist_y := PyVal.float 0,
    tracking := st.tracking, homing := st.homing, waiting := st.waiting }

/-- The `try` block body (lines 85-93): `motor_x.jogging(int(f0_x))`,
`motor_y.jogging(int(f0_y))`, then build `e`. Returns the jog commands
actually issued before any exception, and either the built tuple or the
exception raised (attribute access and `int()` conversion can both
raise; a command already issued is not undone). -/
def jogAndStatus (p : TrackedPos) (posX posY : ℚ) (st : MotorStatus) :
    List MotorCmd × Except PyErr Stagexy :=
  match p.f0_x with
  | Option.none => ([], Except.error PyErr.attributeError)
  | some vx =>
    match pyInt vx with
    | Except.error e => ([], Except.error e)
    | Except.ok x =>
      match p.f0_y with
      | Option.none => ([MotorCmd.jogX x], Except.error PyErr.attributeError)
      | some vy =>
        match pyInt vy with
        | Except.error e => ([MotorCmd.jogX x], Except.error e)
        | Except.ok y =>
          ([MotorCmd.jogX x, MotorCmd.jogY y],
           Except.ok (tryStage posX posY x y st))

/-- The handler on line 95 catches exactly
`(ValueError, TypeError, IndexError)`. -/
def caughtByMotorHandler : PyErr → Bool
  | PyErr.valueError => true
  | PyErr.typeError => true
  | PyErr.indexError => true
  | _ => false

/-- Result of one iteration of `ReceiverProcess.run`: successor state, the
actuator commands issued, the arguments of the `motor_position_queue.put`
calls, the objects actually enqueued, and the flag values after any
`clear()`. -/
structure MotorStepRes where
  last_position : Option TrackedPos
  events : List MotorCmd
  putArgs : List (Nat × Stagexy)
  queued : List MotorQueueMsg
  homeOut : Bool
  calibOut : Bool
deriving DecidableEq, Repr

/-- The `last_position` variable after the queue reads of lines 64-70:
replaced by a freshly pulled message, else retained from the previous
iteration. -/
def lastPositionAfterRead (s : MotorState) (inp : MotorIn) : Option TrackedPos :=
  match inp.posMsg with
  | Option.none => s.last_position
  | some (_, p) => some p

/-- One iteration of the `while not self.finished_event.is_set()` loop of
`ReceiverProcess.run` (lines 44-99). The publish on line 99 is
`self.motor_position_queue.put(time, output_type(*e))`: Python
`Queue.put(obj, block, timeout)` receives `time` as `obj` and the status
tuple as `block`, so the object actually enqueued is the timestamp alone;
`putArgs` records both positional arguments, `queued` the enqueued
object. An exception not caught by the line-95 handler propagates and
aborts the iteration (and the process loop). -/
def motorStep (s : MotorState) (inp : MotorIn) : Except PyErr MotorStepRes :=
  let homeEvs : List MotorCmd :=
    if inp.home then
      [MotorCmd.motorminimalY, MotorCmd.setHomingReverseX 1, MotorCmd.motorminimalX]
    else []
  let calibEvs : List MotorCmd :=
    if inp.calib then [MotorCmd.calibX, MotorCmd.calibY] else []
  let evs := homeEvs ++ calibEvs
  let home' := if inp.home then false else inp.home
  let calib' := if inp.calib then false else inp.calib
  let lastPos := lastPositionAfterRead s inp
  match lastPos with
  | Option.none =>
    Except.ok { last_position := lastPos, events := evs, putArgs := [],
                queued := [], homeOut := home', calibOut := calib' }
  | some p =>
    let st := statusAfterReads inp
    match jogAndStatus p inp.posX inp.posY st with
    | (jevs, Except.ok e) =>
      Except.ok { last_position := lastPos, events := evs ++ jevs,
                  putArgs := [(inp.now, e)],
                  queued := [MotorQueueMsg.timeOnly inp.now],
                  homeOut := home', calibOut := calib' }
    | (jevs, Except.error err) =>
      if caughtByMotorHandler err then
        Except.ok { last_position := lastPos, events := evs ++ jevs,
                    putArgs := [(inp.now, exceptStage inp.posX inp.posY st)],
                    queued := [MotorQueueMsg.timeOnly inp.now],
                    homeOut := home', calibOut := calib' }
      else Except.error err

/-- Actuator commands issued by an iteration (none when it raised). -/
def stepEvents : Except PyErr MotorStepRes → List MotorCmd
  | Except.ok r => r.events
  | Except.error _ => []

/-- Arguments of the `put` calls made by an iteration. -/
def stepPuts : Except PyErr MotorStepRes → List (Nat × Stagexy)
  | Except.ok r => r.putArgs
  | Except.error _ => []

/-- Objects enqueued on `motor_position_queue` by an iteration. -/
def motorQueued : Except PyErr MotorStepRes → List MotorQueueMsg
  | Except.ok r => r.queued
  | Except.error _ => []

/-- Whether the iteration completed without an uncaught exception. -/
def motorOk : Except PyErr MotorStepRes → Bool
  | Except.ok _ => true
  | Except.error _ => false

/- ### Concrete fixtures used by witnesses and counterexamples -/

/-- The §8 scenario accumulator: rows `(0,1,1) … (9,10,10)`, `fps_range = 5`. -/
def acc10 : Accumulator :=
  { header_list := ["t", "x", "y"]
    stored_data := [[0,1,1],[1,2,2],[2,3,3],[3,4,4],[4,5,5],
                    [5,6,6],[6,7,7],[7,8,8],[8,9,9],[9,10,10]]
    fps_range := 5 }

/-- Two rows with equal timestamps: the `get_fps` interval is zero. -/
def accZeroGap : Accumulator :=
  { header_list := ["t"], stored_data := [[0],[0]], fps_range := 2 }

/-- Two rows with decreasing timestamps: the interval is negative. -/
def accNegGap : Accumulator :=
  { header_list := ["t"], stored_data := [[1],[0]], fps_range := 2 }

/-- One row only, fewer than `fps_range = 2`. -/
def accShort : Accumulator :=
  { header_list := ["t"], stored_data := [[1]], fps_range := 2 }

/-- Rows of mixed arity with the odd one out in the middle. -/
def accMixed : Accumulator :=
  { header_list := ["t", "x"], stored_data := [[0,0],[1],[2,2]], fps_range := 10 }

/-- A single stored row, used with `n = 0`. -/
def accSingle : Accumulator :=
  { header_list := ["t", "x"], stored_data := [[5,5]], fps_range := 10 }

/-- An accumulator holding no rows. -/
def accEmpty : Accumulator :=
  { header_list := ["t", "x"], stored_data := [], fps_range := 10 }

/-- Dispatcher config with the default `gui_framerate = 30`. -/
def cfg0 : MFDConfig := { gui_framerate := 30 }

/-- Small motion parameters for 3x3 test frames. -/
def pSmall : MDParams :=
  { fish_threshold := 100, motion_threshold := 200, frame_margin := 1,
    n_previous_save := 5, n_next_save := 2 }

/-- A 3x3 all-ones frame (below threshold), buffered before the trigger. -/
def fLow : Frame := ⟨[[1,1,1],[1,1,1],[1,1,1]]⟩

/-- A 3x3 all-255 frame whose mask differs from a zero mask everywhere. -/
def fHigh : Frame := ⟨[[255,255,255],[255,255,255],[255,255,255]]⟩

/-- State entering the motion-trigger frame: three zero masks stored, one
buffered pre-event frame, no active countdown, memory use at 0.95. -/
def sGate : MFDState :=
  { params := pSmall
    previous_ims := [zeroFrame 3 3, zeroFrame 3 3, zeroFrame 3 3]
    previous_images := [(0, fLow)]
    record_counter := 0
    recording_state := false
    i_frame := 3
    i := 0
    every_x := 10
    i_recorded := 0
    mem_use := 95/100 }

/-- Trigger frame arriving while memory use is high; the fresh `psutil`
reading (0.5) only takes effect for the next iteration. -/
def inGate1 : MFDIn :=
  { paramUpdate := Option.none, time := 10, frame := fHigh,
    framerate := Option.none, mem := 1/2, sig := true }

/-- The following frame, with the gate now open. -/
def inGate2 : MFDIn :=
  { paramUpdate := Option.none, time := 11, frame := fHigh,
    framerate := Option.none, mem := 1/2, sig := true }

/-- Like `sGate` but with memory use low: the gate is open at the
transition. -/
def sOpen : MFDState :=
  { params := pSmall
    previous_ims := [zeroFrame 3 3, zeroFrame 3 3, zeroFrame 3 3]
    previous_images := [(0, fLow)]
    record_counter := 0
    recording_state := false
    i_frame := 3
    i := 0
    every_x := 10
    i_recorded := 0
    mem_use := 1/2 }

/-- A well-formed tracked position with integer offset fields 3 and 4. -/
def posGood : TrackedPos := { f0_x := some (PyVal.int 3), f0_y := some (PyVal.int 4) }

/-- A message carrying neither `f0_x` nor `f0_y`. -/
def posNoAttr : TrackedPos := { f0_x := Option.none, f0_y := Option.none }

/-- A message whose `f0_x` is a non-numeric string (its `int()` raises
`ValueError`). -/
def posBadStr : TrackedPos := { f0_x := some (PyVal.str "abc"), f0_y := some (PyVal.int 4) }

/-- A message whose `f0_x` is `None` (its `int()` raises `TypeError`). -/
def posBadNone : TrackedPos := { f0_x := some PyVal.none, f0_y := some (PyVal.int 4) }

/-- Iteration input: homing requested while a tracked position is pending. -/
def inHome : MotorIn :=
  { home := true, calib := false, posMsg := some (5, posGood),
    statusMsg := Option.none, posX := 10, posY := 20, now := 7 }

/-- Iteration input: plain tracking, a fresh well-formed position. -/
def inTrack : MotorIn :=
  { home := false, calib := false, posMsg := some (5, posGood),
    statusMsg := Option.none, posX := 10, posY := 20, now := 7 }

/-- Iteration input: the pending message lacks the offset attributes. -/
def inNoAttr : MotorIn :=
  { home := false, calib := false, posMsg := some (5, posNoAttr),
    statusMsg := Option.none, posX := 10, posY := 20, now := 7 }

/-- Iteration input: the pending message has a malformed `f0_x`. -/
def inBadStr : MotorIn :=
  { home := false, calib := false, posMsg := some (5, posBadStr),
    statusMsg := Option.none, posX := 10, posY := 20, now := 7 }

/-- Iteration input: the pending message has `f0_x = None`. -/
def inBadNone : MotorIn :=
  { home := false, calib := false, posMsg := some (5, posBadNone),
    statusMsg := Option.none, posX := 10, posY := 20, now := 7 }

/- ## Helper lemmas -/

theorem pyIdx_neg_of_le {α : Type _} (l : List α) (k : Nat) (hk1 : 1 ≤ k)
    (hk2 : k ≤ l.length) : pyIdx l (-(k : Int)) = l.get? (l.length - k) := by
  have h1 : ¬ (0 ≤ -(k : Int)) := by omega
  have h2 : (-(-(k : Int))).toNat ≤ l.length := by omega
  rw [pyIdx, if_neg h1, if_pos h2]
  congr 1
  omega

theorem pyIdx_zero {α : Type _} (l : List α) : pyIdx l 0 = l.get? 0 := by
  simp [pyIdx]

theorem get?_eq_some_getD {α : Type _} (l : List α) (n : Nat) (d : α)
    (h : n < l.length) : l.get? n = some (l.getD n d) := by
  rcases hx : l.get? n with _ | x
  · rw [List.get?_eq_none] at hx
    omega
  · have hd : l.getD n d = x := by
      have hgd : l.getD n d = (l.get? n).getD d := rfl
      rw [hgd, hx]
      rfl
    rw [hd]

theorem head?_drop_eq {α : Type _} (l : List α) (n : Nat) :
    (l.drop n).head? = l.get? n := by
  induction l generalizing n with
  | nil => simp
  | cons x xs ih =>
    cases n with
    | zero => simp
    | succ m => simp [ih m]

/- ## Claim C3 -/

/-- Claim C3 (corrected), counterexample: on the §8 scenario accumulator
(rows `(0,1,1) … (9,10,10)`, `fps_range = 5`) `get_fps` returns
`5/(9-5) = 1.25`, not the claimed `5/(9-4) = 1.0`: the second endpoint is
`stored_data[-fps_range]`, the row `fps_range - 1` (not `fps_range`)
positions earlier than the most recent row. -/
theorem get_fps_scenario_cex :
    acc10.get_fps = Except.ok (5/4) ∧ ((5 : ℚ)/4 ≠ 1) := by
  constructor
  · simp [Accumulator.get_fps, acc10, pyIdx]
    norm_num
  · norm_num

/-- Claim C3 (corrected, amended): for an accumulator with
`fps_range ≥ 1`, at least `fps_range` stored rows, nonempty rows, and
distinct endpoint timestamps, `get_fps` returns `fps_range` divided by
(timestamp of the most recent row minus the timestamp of the row at index
`len - fps_range`, i.e. `fps_range - 1` positions earlier than the most
recent row). -/
theorem get_fps_window_formula (a : Accumulator)
    (h1 : 1 ≤ a.fps_range) (h2 : a.fps_range ≤ a.stored_data.length)
    (hrows : ∀ r ∈ a.stored_data, r ≠ [])
    (hne : (a.stored_data.getD (a.stored_data.length - 1) []).getD 0 0 ≠
      (a.stored_data.getD (a.stored_data.length - a.fps_range) []).getD 0 0) :
    a.get_fps = Except.ok ((a.fps_range : ℚ) /
      ((a.stored_data.getD (a.stored_data.length - 1) []).getD 0 0 -
       (a.stored_data.getD (a.stored_data.length - a.fps_range) []).getD 0 0)) := by
  have hlen : 1 ≤ a.stored_data.length := le_trans h1 h2
  have e1 : pyIdx a.stored_data (-1) =
      some (a.stored_data.getD (a.stored_data.length - 1) []) := by
    have h := pyIdx_neg_of_le a.stored_data 1 le_rfl hlen
    rw [show ((1 : Nat) : Int) = 1 from rfl] at h
    rw [h]
    exact get?_eq_some_getD _ _ _ (by omega)
  have hLmem : a.stored_data.getD (a.stored_data.length - 1) [] ∈ a.stored_data :=
    List.get?_mem (get?_eq_some_getD a.stored_data (a.stored_data.length - 1) [] (by omega))
  have e2 : pyIdx (a.stored_data.getD (a.stored_data.length - 1) []) 0 =
      some ((a.stored_data.getD (a.stored_data.length - 1) []).getD 0 0) := by
    rw [pyIdx_zero]
    exact get?_eq_some_getD _ _ _
      (List.length_pos.mpr (hrows _ hLmem))
  have e3 : pyIdx a.stored_data (-(a.fps_range : Int)) =
      some (a.stored_data.getD (a.stored_data.length - a.fps_range) []) := by
    rw [pyIdx_neg_of_le a.stored_data a.fps_range h1 h2]
    exact get?_eq_some_getD _ _ _ (by omega)
  have hMmem : a.stored_data.getD (a.stored_data.length - a.fps_range) [] ∈ a.stored_data :=
    List.get?_mem
      (get?_eq_some_getD a.stored_data (a.stored_data.length - a.fps_range) [] (by omega))
  have e4 : pyIdx (a.stored_data.getD (a.stored_data.length - a.fps_range) []) 0 =
      some ((a.stored_data.getD (a.stored_data.length - a.fps_range) []).getD 0 0) := by
    rw [pyIdx_zero]
    exact get?_eq_some_getD _ _ _
      (List.length_pos.mpr (hrows _ hMmem))
  simp only [Accumulator.get_fps, e1, e2, e3, e4]
  rw [if_neg (sub_ne_zero_of_ne hne)]

/-- Witness for C3's amended theorem at the §8 scenario accumulator. -/
theorem get_fps_window_formula_witness :
    acc10.get_fps = Except.ok ((acc10.fps_range : ℚ) /
      ((acc10.stored_data.getD (acc10.stored_data.length - 1) []).getD 0 0 -
       (acc10.stored_data.getD (acc10.stored_data.length - acc10.fps_range) []).getD 0 0)) :=
  get_fps_window_formula acc10 (by norm_num [acc10]) (by norm_num [acc10])
    (by intro r hr; fin_cases hr <;> simp)
    (by norm_num [acc10, List.getD])

/- ## Claim C7 -/

/-- Claim C7 (corrected), counterexample: with two rows of equal
timestamps and `fps_range = 2`, `get_fps` raises `ZeroDivisionError`
(caught exceptions are only `IndexError` and `ValueError`), and with a
decreasing timestamp pair it returns `-2`, not the claimed fallback 0. -/
theorem get_fps_zero_interval_raises_cex :
    accZeroGap.get_fps = Except.error PyErr.zeroDivisionError
    ∧ accNegGap.get_fps = Except.ok (-2)
    ∧ ((-2 : ℚ) ≠ 0) := by
  refine ⟨?_, ?_, by norm_num⟩
  · simp [Accumulator.get_fps, accZeroGap, pyIdx]
  · simp [Accumulator.get_fps, accNegGap, pyIdx]
    norm_num

/-- Claim C7 (corrected, amended): `get_fps` returns the fallback 0
without raising whenever fewer than `fps_range` rows are stored (every
such shortfall is an `IndexError`, which the handler catches); the
non-positive-interval half of the claim fails (see the counterexample). -/
theorem get_fps_zero_when_short (a : Accumulator)
    (h : a.stored_data.length < a.fps_range) : a.get_fps = Except.ok 0 := by
  have hmid : pyIdx a.stored_data (-(a.fps_range : Int)) = none := by
    have h1 : ¬ (0 ≤ -(a.fps_range : Int)) := by omega
    have h2 : ¬ ((-(-(a.fps_range : Int))).toNat ≤ a.stored_data.length) := by omega
    rw [pyIdx, if_neg h1, if_neg h2]
  rcases ha : pyIdx a.stored_data (-1) with _ | lastRow
  · simp [Accumulator.get_fps, ha]
  · rcases hb : pyIdx lastRow 0 with _ | last_t
    · simp [Accumulator.get_fps, ha, hb]
    · simp [Accumulator.get_fps, ha, hb, hmid]

/-- Witness for C7's amended theorem: a single stored row with
`fps_range = 2` yields 0. -/
theorem get_fps_zero_when_short_witness :
    accShort.get_fps = Except.ok 0 :=
  get_fps_zero_when_short accShort (by norm_num [accShort])

/- ## Claim C4 -/

theorem getLastD_eq_get? {α : Type _} (l : List α) (d : α) :
    l.getLastD d = (l.get? (l.length - 1)).getD d := by
  rw [List.getLastD_eq_getLast?, List.getLast?_eq_get?]

theorem getLastD_drop {α : Type _} (l : List α) (k : Nat) (d : α) (hk : k < l.length) :
    (l.drop k).getLastD d = l.getLastD d := by
  rw [getLastD_eq_get?, getLastD_eq_get?]
  have hq : (l.drop k).get? ((l.drop k).length - 1) = l.get? (l.length - 1) := by
    have h1 : (l.drop k).get? ((l.drop k).length - 1) =
        l.get? (k + ((l.drop k).length - 1)) := by
      rw [List.get?_drop]
    rw [h1]
    congr 1
    have := List.length_drop k l
    omega
  rw [hq]

/-- Claim C4 (corrected), counterexample: with stored rows
`[[0,0],[1],[2,2]]` and `n = 3`, `get_last_n` returns all three rows —
including the middle arity-1 row, which does not have the arity of the
most recent row — because the code keeps everything from the FIRST
arity-matching index, not the maximal same-arity suffix; and with one
stored row and `n = 0` it returns 1 row, not at most 0. -/
theorem get_last_n_arity_cex :
    accMixed.get_last_n 3 = [[0,0],[1],[2,2]]
    ∧ [(1 : ℚ)] ∈ accMixed.get_last_n 3
    ∧ ([(1 : ℚ)]).length ≠ (accMixed.stored_data.getLastD []).length
    ∧ accSingle.get_last_n 0 = [[5,5]]
    ∧ (accSingle.get_last_n 0).length ≠ 0 := by
  have h1 : accMixed.get_last_n 3 = [[0,0],[1],[2,2]] := by
    simp [Accumulator.get_last_n, accMixed, List.findIdx, List.findIdx.go]
  have h2 : accSingle.get_last_n 0 = [[5,5]] := by
    simp [Accumulator.get_last_n, accSingle, List.findIdx, List.findIdx.go]
  refine ⟨h1, ?_, ?_, h2, ?_⟩
  · rw [h1]; simp
  · simp [accMixed]
  · rw [h2]; simp

/-- Claim C4 (corrected, amended): with zero stored rows `get_last_n`
returns a single all-zero row of header length; otherwise it returns a
nonempty contiguous suffix of the stored rows, of length at most
`max (min n len) 1` (one row even for `n = 0`), whose first and last rows
both have the arity of the most recently appended row — rows of differing
arity strictly between the first match and the end may still be included
(see the counterexample), so only the endpoints are guaranteed. -/
theorem get_last_n_suffix_properties :
    (∀ (a : Accumulator) (n : Nat), a.stored_data = [] →
      a.get_last_n n = [List.replicate a.header_list.length 0])
    ∧ (∀ (a : Accumulator) (n : Nat), a.stored_data ≠ [] →
      a.get_last_n n ≠ []
      ∧ (a.get_last_n n).length ≤ max (min n a.stored_data.length) 1
      ∧ a.get_last_n n <:+ a.stored_data
      ∧ ((a.get_last_n n).headD []).length = (a.stored_data.getLastD []).length
      ∧ (a.get_last_n n).getLastD [] = a.stored_data.getLastD []) := by
  constructor
  · intro a n h
    simp [Accumulator.get_last_n, h]
  · intro a n h
    have hlen : 0 < a.stored_data.length := List.length_pos.mpr h
    have hres : a.get_last_n n =
        (a.stored_data.drop (a.stored_data.length - max (min n a.stored_data.length) 1)).drop
          ((a.stored_data.drop (a.stored_data.length - max (min n a.stored_data.length) 1)).findIdx
            (fun d => d.length ==
              ((a.stored_data.drop
                  (a.stored_data.length - max (min n a.stored_data.length) 1)).getLastD []).length)) := by
      rw [Accumulator.get_last_n, if_neg (by omega)]
    set m := a.stored_data.length - max (min n a.stored_data.length) 1 with hm
    set W := a.stored_data.drop m with hWdef
    have hWlen : W.length = max (min n a.stored_data.length) 1 := by
      rw [hWdef, List.length_drop]
      omega
    have hWpos : 0 < W.length := by omega
    have hWne : W ≠ [] := List.length_pos.mp hWpos
    have hWlast : W.getLastD [] = a.stored_data.getLastD [] :=
      getLastD_drop a.stored_data m [] (by omega)
    set p : List ℚ → Bool := fun d => d.length == (W.getLastD []).length with hp
    set k := W.findIdx p with hkdef
    have hmemLast : W.getLastD [] ∈ W := by
      rw [List.getLastD_eq_getLast?, List.getLast?_eq_getLast_of_ne_nil hWne]
      exact List.getLast_mem hWne
    have hkW : k < W.length := by
      apply List.findIdx_lt_length_of_exists
      exact ⟨W.getLastD [], hmemLast, by simp [hp]⟩
    have hresW : a.get_last_n n = W.drop k := hres
    have hreslen : (W.drop k).length = W.length - k := List.length_drop k W
    refine ⟨?_, ?_, ?_, ?_, ?_⟩
    · rw [hresW]
      apply List.length_pos.mp
      omega
    · rw [hresW]
      omega
    · rw [hresW, hWdef, List.drop_drop]
      exact List.drop_suffix _ _
    · rw [hresW]
      have hhead : (W.drop k).head? = W.get? k := head?_drop_eq W k
      have hgetk : W.get? k = some (W.getD k []) := get?_eq_some_getD W k [] hkW
      have hpk : p (W.get ⟨k, hkW⟩) = true := List.findIdx_get
      have hgd : W.getD k [] = W.get ⟨k, hkW⟩ := by
        have hg := List.get?_eq_get hkW
        rw [hg] at hgetk
        exact (Option.some.inj hgetk).symm
      have hhd : (W.drop k).headD [] = W.getD k [] := by
        rw [List.headD_eq_head?_getD, hhead, hgetk]
        rfl
      rw [hhd, hgd]
      rw [hp] at hpk
      simp only [beq_iff_eq] at hpk
      rw [← hWlast]
      exact hpk
    · rw [hresW, getLastD_drop W k [] hkW, hWlast]

/-- Witness for C4's amended theorem, instantiated at the empty
accumulator and at the mixed-arity fixture with `n = 3`. -/
theorem get_last_n_suffix_properties_witness :
    accEmpty.get_last_n 4 = [List.replicate accEmpty.header_list.length 0]
    ∧ (accMixed.get_last_n 3 ≠ []
       ∧ (accMixed.get_last_n 3).length ≤ max (min 3 accMixed.stored_data.length) 1
       ∧ accMixed.get_last_n 3 <:+ accMixed.stored_data
       ∧ ((accMixed.get_last_n 3).headD []).length = (accMixed.stored_data.getLastD []).length
       ∧ (accMixed.get_last_n 3).getLastD [] = accMixed.stored_data.getLastD []) :=
  ⟨get_last_n_suffix_properties.1 accEmpty 4 rfl,
   get_last_n_suffix_properties.2 accMixed 3 (by simp [accMixed])⟩

/- ## Claim C5 -/

theorem nCrossed_eq_three_iff (p : MDParams) (ims : List Frame) (cur : Frame) :
    nCrossed p ims cur = 3 ↔
      ∀ j < 3, p.motion_threshold < difsum p.frame_margin (ims.getD j (zeroFrame 0 0)) cur := by
  have key : (List.range 3).countP
        (fun j => decide (p.motion_threshold <
          difsum p.frame_margin (ims.getD j (zeroFrame 0 0)) cur)) =
        (List.range 3).length ↔
      ∀ a ∈ List.range 3, (fun j => decide (p.motion_threshold <
          difsum p.frame_margin (ims.getD j (zeroFrame 0 0)) cur)) a :=
    List.countP_eq_length
  simp only [List.length_range, List.mem_range, decide_eq_true_eq] at key
  exact key

/-- Claim C5 (confirmed): on every frame processed with at least 3 loop
frames already seen, the trigger count reaches 3 exactly when all 3
margin-cropped difference sums against the stored thresholded masks
exceed `motion_threshold` (a single non-exceeding comparison suppresses
the trigger), and the record counter after the step equals the armed
value — `n_next_save` on a trigger, regardless of any active countdown
(restart, not extend), the old countdown otherwise — decremented once
iff positive. -/
theorem motion_trigger_iff_all_crossed (cfg : MFDConfig) (inp : MFDIn) (s : MFDState)
    (h : 3 ≤ s.i_frame) :
    (let p := inp.paramUpdate.getD s.params
     let cur := maskOf p.fish_threshold inp.frame
     (nCrossed p s.previous_ims cur = 3 ↔
        ∀ j < 3, p.motion_threshold <
          difsum p.frame_margin (s.previous_ims.getD j (zeroFrame 0 0)) cur)
     ∧ (stepMFD cfg inp s).state.record_counter =
        (let armed : Int :=
           if nCrossed p s.previous_ims cur = 3 then (p.n_next_save : Int)
           else s.record_counter
         if 0 < armed then armed - 1 else armed)) := by
  refine ⟨nCrossed_eq_three_iff _ _ _, ?_⟩
  simp only [stepMFD, recBlock, if_pos h]
  by_cases htrig : nCrossed (inp.paramUpdate.getD s.params) s.previous_ims
      (maskOf (inp.paramUpdate.getD s.params).fish_threshold inp.frame) = 3
  · rw [if_pos htrig]
    by_cases h0 : 0 < ((inp.paramUpdate.getD s.params).n_next_save : Int)
    · rw [if_pos h0, if_pos h0]
    · rw [if_neg h0, if_neg h0]
  · rw [if_neg htrig]
    by_cases h0 : 0 < s.record_counter
    · rw [if_pos h0, if_pos h0]
    · rw [if_neg h0, if_neg h0]

/-- Witness for C5 at a concrete triggering state: three zero masks, an
all-255 frame, `n_next_save = 2`; the counter is armed to 2 and
decremented to 1. -/
theorem motion_trigger_iff_all_crossed_witness :
    (stepMFD cfg0 inGate1 sOpen).state.record_counter = 1 := by
  have h := (motion_trigger_iff_all_crossed cfg0 inGate1 sOpen (by norm_num [sOpen])).2
  rw [h]
  have hc : nCrossed (inGate1.paramUpdate.getD sOpen.params) sOpen.previous_ims
      (maskOf (inGate1.paramUpdate.getD sOpen.params).fish_threshold inGate1.frame) = 3 := by
    decide
  simp only [hc, if_true]
  norm_num [sOpen, inGate1, pSmall]

/- ## Claim C8 -/

/-- Claim C8 (confirmed): on a frame processed with history (3 or more
loop frames seen) while the memory gate is closed — the recording-enabled
signal clear or memory utilization at least 0.9 — nothing is emitted to
the output or timestamp queues, yet the (possibly re-armed) record
counter still decrements by exactly 1 whenever positive, and the counter
never becomes negative. -/
theorem memory_pressure_suppresses_emission_but_decrements
    (cfg : MFDConfig) (inp : MFDIn) (s : MFDState)
    (h3 : 3 ≤ s.i_frame)
    (hgate : inp.sig = false ∨ (9 : ℚ)/10 ≤ s.mem_use) :
    (let p := inp.paramUpdate.getD s.params
     let armed : Int :=
       if nCrossed p s.previous_ims (maskOf p.fish_threshold inp.frame) = 3
       then (p.n_next_save : Int) else s.record_counter
     (0 < armed →
        (stepMFD cfg inp s).outputs = []
        ∧ (stepMFD cfg inp s).framestarts = []
        ∧ (stepMFD cfg inp s).state.record_counter = armed - 1)
     ∧ (0 ≤ s.record_counter → 0 ≤ (stepMFD cfg inp s).state.record_counter)) := by
  have hg : ¬ (inp.sig = true ∧ s.mem_use < 9/10) := by
    rcases hgate with hs | hm
    · rintro ⟨h1, -⟩
      rw [hs] at h1
      cases h1
    · rintro ⟨-, h2⟩
      exact absurd h2 (not_lt.mpr hm)
  simp only [stepMFD, recBlock, if_pos h3]
  constructor
  · intro harmed
    rw [if_pos harmed, if_neg hg]
    exact ⟨rfl, rfl, rfl⟩
  · intro hrc
    by_cases htrig : nCrossed (inp.paramUpdate.getD s.params) s.previous_ims
        (maskOf (inp.paramUpdate.getD s.params).fish_threshold inp.frame) = 3
    · rw [if_pos htrig] at *
      by_cases h0 : 0 < ((inp.paramUpdate.getD s.params).n_next_save : Int)
      · rw [if_pos h0]
        simp only [if_neg hg]
        omega
      · rw [if_neg h0]
        dsimp only
        omega
    · rw [if_neg htrig] at *
      by_cases h0 : 0 < s.record_counter
      · rw [if_pos h0]
        simp only [if_neg hg]
        omega
      · rw [if_neg h0]
        dsimp only
        omega

/-- Witness for C8 at the gated trigger frame: memory at 0.95 suppresses
emission while the counter is armed to 2 and decremented to 1. -/
theorem memory_pressure_suppresses_emission_but_decrements_witness :
    (stepMFD cfg0 inGate1 sGate).outputs = []
    ∧ (stepMFD cfg0 inGate1 sGate).framestarts = []
    ∧ (stepMFD cfg0 inGate1 sGate).state.record_counter = 1 := by
  have h := memory_pressure_suppresses_emission_but_decrements cfg0 inGate1 sGate
    (by norm_num [sGate]) (Or.inr (by norm_num [sGate]))
  have hc : nCrossed (inGate1.paramUpdate.getD sGate.params) sGate.previous_ims
      (maskOf (inGate1.paramUpdate.getD sGate.params).fish_threshold inGate1.frame) = 3 := by
    decide
  simp only [hc, if_true] at h
  have h2 := h.1 (by norm_num [sGate, inGate1, pSmall])
  refine ⟨h2.1, h2.2.1, ?_⟩
  rw [h2.2.2]
  norm_num [sGate, inGate1, pSmall]

/- ## Claim C6 -/

/-- Claim C6 (corrected, amended): when the transition from not-recording
to recording happens on a frame where the emission gate is open
(`signal_start_rec` set and memory use below 0.9), the entire pre-event
buffer is flushed to the output/timestamp queues in original order
(oldest first) before the triggering frame's own emission, and the
buffer is emptied; when the gate is closed on the transition frame the
flush does not happen then — and since `recording_state` is set anyway,
it does not happen later in that episode either (see the
counterexample). -/
theorem preevent_flush_on_gated_transition (cfg : MFDConfig) (inp : MFDIn) (s : MFDState)
    (h3 : 3 ≤ s.i_frame) (hrec : s.recording_state = false)
    (hsig : inp.sig = true) (hmem : s.mem_use < 9/10)
    (harmed : 0 <
      (let p := inp.paramUpdate.getD s.params
       if nCrossed p s.previous_ims (maskOf p.fish_threshold inp.frame) = 3
       then (p.n_next_save : Int) else s.record_counter)) :
    (stepMFD cfg inp s).outputs = s.previous_images.map Prod.snd ++ [inp.frame]
    ∧ (stepMFD cfg inp s).framestarts = s.previous_images.map Prod.fst ++ [inp.time]
    ∧ (stepMFD cfg inp s).state.previous_images = []
    ∧ (stepMFD cfg inp s).state.recording_state = true := by
  have hgate : inp.sig = true ∧ s.mem_use < 9/10 := ⟨hsig, hmem⟩
  simp only [stepMFD, recBlock, if_pos h3]
  simp only at harmed
  rw [if_pos harmed, if_pos hgate, if_pos hrec]
  exact ⟨rfl, rfl, rfl, rfl⟩

/-- Witness for C6's amended theorem: with the gate open at the
transition, the single buffered frame is emitted before the triggering
frame and the buffer is cleared. -/
theorem preevent_flush_on_gated_transition_witness :
    (stepMFD cfg0 inGate1 sOpen).outputs = [fLow, fHigh]
    ∧ (stepMFD cfg0 inGate1 sOpen).framestarts = [0, 10]
    ∧ (stepMFD cfg0 inGate1 sOpen).state.previous_images = [] := by
  have hc : nCrossed (inGate1.paramUpdate.getD sOpen.params) sOpen.previous_ims
      (maskOf (inGate1.paramUpdate.getD sOpen.params).fish_threshold inGate1.frame) = 3 := by
    decide
  have h := preevent_flush_on_gated_transition cfg0 inGate1 sOpen
    (by norm_num [sOpen]) (by norm_num [sOpen]) rfl (by norm_num [sOpen])
    (by simp only [hc, if_true]; norm_num [sOpen, inGate1, pSmall])
  refine ⟨?_, ?_, h.2.2.1⟩
  · rw [h.1]
    norm_num [sOpen, inGate1]
  · rw [h.2.1]
    norm_num [sOpen, inGate1]

/-- Claim C6 (corrected), counterexample: an episode whose transition
frame arrives while memory use is 0.95. The transition to recording
happens (`recording_state` becomes true, counter armed), but the flush is
inside the memory gate, so nothing is emitted on the transition frame;
on the next frame the gate is open and the live frame is emitted — the
episode thus emits a live frame while its pre-event buffer (holding
`fLow`) is never flushed, violating "flushed exactly once per episode,
before any live frame". -/
theorem preevent_flush_skipped_cex :
    sGate.recording_state = false
    ∧ sGate.previous_images = [(0, fLow)]
    ∧ (stepMFD cfg0 inGate1 sGate).state.recording_state = true
    ∧ (stepMFD cfg0 inGate1 sGate).outputs = []
    ∧ (stepMFD cfg0 inGate1 sGate).framestarts = []
    ∧ (stepMFD cfg0 inGate2 (stepMFD cfg0 inGate1 sGate).state).outputs = [fHigh]
    ∧ (stepMFD cfg0 inGate2 (stepMFD cfg0 inGate1 sGate).state).state.record_counter = 0
    ∧ fLow ≠ fHigh := by
  have hc : nCrossed (inGate1.paramUpdate.getD sGate.params) sGate.previous_ims
      (maskOf (inGate1.paramUpdate.getD sGate.params).fish_threshold inGate1.frame) = 3 := by
    decide
  have hs1 : stepMFD cfg0 inGate1 sGate =
      { state :=
          { params := pSmall
            previous_ims := [zeroFrame 3 3, maskOf 100 fHigh, zeroFrame 3 3]
            previous_images := [(0, fLow)]
            record_counter := 1
            recording_state := true
            i_frame := 4
            i := 1
            every_x := 10
            i_recorded := 0
            mem_use := 1/2 }
        outputs := []
        framestarts := []
        gui := [(10, fHigh)] } := by
    rw [stepMFD]
    norm_num [recBlock, sGate, inGate1, pSmall, hc]
    decide
  rw [hs1]
  rw [stepMFD]
  norm_num [recBlock, sGate, inGate2, pSmall, fLow, fHigh]
  decide

/- ## Claim C10 -/

/-- Claim C10 (confirmed): the pre-loop first frame determines the
initial state only through its shape (two first frames of equal shape
give identical initial states), that initial state has an empty
pre-event buffer, a zero countdown and `i_frame = 0`; and every loop
frame processed with `i_frame < 3` — hence each of the first 3 loop
frames — is neither appended to the pre-event buffer nor emitted to the
output/timestamp queues, leaves the countdown and recording state
untouched, and only stores its thresholded mask into the circular
comparison slots. -/
theorem first_frames_no_buffer_no_emit :
    (∀ f g : Frame, f.h = g.h → f.w = g.w → initMFD f = initMFD g)
    ∧ (∀ f : Frame, (initMFD f).previous_images = []
        ∧ (initMFD f).record_counter = 0 ∧ (initMFD f).i_frame = 0)
    ∧ (∀ (cfg : MFDConfig) (inp : MFDIn) (s : MFDState), s.i_frame < 3 →
        (stepMFD cfg inp s).outputs = []
        ∧ (stepMFD cfg inp s).framestarts = []
        ∧ (stepMFD cfg inp s).state.previous_images = s.previous_images
        ∧ (stepMFD cfg inp s).state.record_counter = s.record_counter
        ∧ (stepMFD cfg inp s).state.recording_state = s.recording_state
        ∧ (stepMFD cfg inp s).state.i_frame = s.i_frame + 1
        ∧ (stepMFD cfg inp s).state.previous_ims =
            s.previous_ims.set ((s.i_frame + 1) % 3)
              (maskOf (inp.paramUpdate.getD s.params).fish_threshold inp.frame)) := by
  refine ⟨?_, ?_, ?_⟩
  · intro f g hh hw
    rw [initMFD, initMFD, hh, hw]
  · intro f
    exact ⟨rfl, rfl, rfl⟩
  · intro cfg inp s h
    have h' : ¬ (3 ≤ s.i_frame) := by omega
    simp [stepMFD, recBlock, if_neg h']

/-- Witness for C10: one step from the freshly initialized state (shape
taken from an all-ones 3x3 first frame) emits nothing, buffers nothing,
and keeps the countdown at zero. -/
theorem first_frames_no_buffer_no_emit_witness :
    (stepMFD cfg0 inGate1 (initMFD fLow)).outputs = []
    ∧ (stepMFD cfg0 inGate1 (initMFD fLow)).framestarts = []
    ∧ (stepMFD cfg0 inGate1 (initMFD fLow)).state.previous_images = []
    ∧ (stepMFD cfg0 inGate1 (initMFD fLow)).state.record_counter = 0 := by
  have h := first_frames_no_buffer_no_emit.2.2 cfg0 inGate1 (initMFD fLow)
    (by norm_num [initMFD])
  exact ⟨h.1, h.2.1, h.2.2.1, h.2.2.2.1⟩

/- ## Claim C1 -/

/-- Claim C1 (corrected), counterexample: with the homing flag set and a
well-formed tracked position pending, the iteration issues the homing
commands AND the position-driven jog commands: homing does not preempt
the jog in the same iteration (the branches are independent `if`s, not
an `elif` chain). -/
theorem motor_homing_does_not_suppress_jog_cex :
    stepEvents (motorStep { last_position := Option.none } inHome) =
      [MotorCmd.motorminimalY, MotorCmd.setHomingReverseX 1, MotorCmd.motorminimalX,
       MotorCmd.jogX 3, MotorCmd.jogY 4]
    ∧ MotorCmd.jogX 3 ∈ stepEvents (motorStep { last_position := Option.none } inHome)
    ∧ MotorCmd.jogY 4 ∈ stepEvents (motorStep { last_position := Option.none } inHome) := by
  refine ⟨rfl, ?_, ?_⟩ <;> decide

/-- Claim C1 (corrected, amended): in an iteration with the homing flag
set and a tracked position pending whose offset fields convert, the
homing routine executes (y-axis minimal-move, x-axis reverse flag,
x-axis minimal-move, in that order) and the jog commands ALSO execute in
the same iteration, after the homing commands. -/
theorem motor_homing_then_jog_same_iteration (s : MotorState) (inp : MotorIn)
    (p : TrackedPos) (vx vy : PyVal) (x y : Int)
    (hhome : inp.home = true) (hcalib : inp.calib = false)
    (hpos : lastPositionAfterRead s inp = some p)
    (hfx : p.f0_x = some vx) (hx : pyInt vx = Except.ok x)
    (hfy : p.f0_y = some vy) (hy : pyInt vy = Except.ok y) :
    stepEvents (motorStep s inp) =
      [MotorCmd.motorminimalY, MotorCmd.setHomingReverseX 1, MotorCmd.motorminimalX,
       MotorCmd.jogX x, MotorCmd.jogY y] := by
  simp [motorStep, stepEvents, jogAndStatus, hhome, hcalib, hpos, hfx, hx, hfy, hy]

/-- Witness for C1's amended theorem at the concrete homing-plus-position
iteration. -/
theorem motor_homing_then_jog_same_iteration_witness :
    stepEvents (motorStep { last_position := Option.none } inHome) =
      [MotorCmd.motorminimalY, MotorCmd.setHomingReverseX 1, MotorCmd.motorminimalX,
       MotorCmd.jogX 3, MotorCmd.jogY 4] :=
  motor_homing_then_jog_same_iteration { last_position := Option.none } inHome
    posGood (PyVal.int 3) (PyVal.int 4) 3 4 rfl rfl rfl rfl rfl rfl rfl

/- ## Claim C2 -/

/-- Claim C2 (code bug): in an iteration with a known position the code
makes exactly one `put` call, but
`self.motor_position_queue.put(time, output_type(*e))` passes the status
tuple as `Queue.put`'s `block` parameter, so the object enqueued is the
timestamp alone — the `(timestamp, Stage Status)` pair the spec
describes is never enqueued. -/
theorem motor_status_put_enqueues_timestamp_only :
    stepPuts (motorStep { last_position := Option.none } inTrack)
      = [(7, tryStage 10 20 3 4 idleStatus)]
    ∧ motorQueued (motorStep { last_position := Option.none } inTrack)
      = [MotorQueueMsg.timeOnly 7]
    ∧ MotorQueueMsg.pair 7 (tryStage 10 20 3 4 idleStatus)
      ∉ motorQueued (motorStep { last_position := Option.none } inTrack) := by
  refine ⟨rfl, rfl, ?_⟩
  rw [show motorQueued (motorStep { last_position := Option.none } inTrack)
      = [MotorQueueMsg.timeOnly 7] from rfl]
  simp

/- ## Claim C9 -/

/-- Claim C9 (corrected), counterexample: a tracked-position message
without the `f0_x` attribute makes the iteration raise
`AttributeError`, which the `except (ValueError, TypeError, IndexError)`
handler does not catch — so the loop is NOT protected against every
possible message content. -/
theorem motor_missing_attribute_raises_cex :
    motorStep { last_position := Option.none } inNoAttr
      = Except.error PyErr.attributeError
    ∧ caughtByMotorHandler PyErr.attributeError = false :=
  ⟨rfl, rfl⟩

/-- Claim C9 (corrected, amended): when converting the offset fields
fails with one of the caught exception classes (`ValueError`,
`TypeError`, `IndexError`), the iteration neither raises nor halts the
loop: the handler substitutes a status tuple with zero target offsets
`(0.0, 0.0)` and the last read absolute positions and passes it to the
queue `put` call (of which only the timestamp is enqueued, see C2);
failures outside those classes (e.g. a missing attribute) are not
recovered. -/
theorem motor_conversion_fallback_caught (s : MotorState) (inp : MotorIn)
    (p : TrackedPos) (err : PyErr)
    (hpos : lastPositionAfterRead s inp = some p)
    (herr : (jogAndStatus p inp.posX inp.posY (statusAfterReads inp)).2
      = Except.error err)
    (hcaught : caughtByMotorHandler err = true) :
    motorOk (motorStep s inp) = true
    ∧ stepPuts (motorStep s inp)
        = [(inp.now, exceptStage inp.posX inp.posY (statusAfterReads inp))]
    ∧ motorQueued (motorStep s inp) = [MotorQueueMsg.timeOnly inp.now] := by
  rcases hJ : jogAndStatus p inp.posX inp.posY (statusAfterReads inp) with ⟨jevs, r⟩
  rw [hJ] at herr
  simp only at herr
  subst herr
  simp [motorStep, motorOk, stepPuts, motorQueued, hpos, hJ, hcaught]

/-- Witness for C9's amended theorem: `f0_x = None` raises `TypeError`,
which is caught; the zero-offset fallback tuple is passed to the put
call and the loop continues. -/
theorem motor_conversion_fallback_caught_witness :
    motorOk (motorStep { last_position := Option.none } inBadNone) = true
    ∧ stepPuts (motorStep { last_position := Option.none } inBadNone)
        = [(7, exceptStage 10 20 idleStatus)]
    ∧ motorQueued (motorStep { last_position := Option.none } inBadNone)
        = [MotorQueueMsg.timeOnly 7] := by
  have h := motor_conversion_fallback_caught { last_position := Option.none } inBadNone
    posBadNone PyErr.typeError rfl rfl rfl
  exact ⟨h.1, h.2.1, h.2.2⟩
